import Mathlib

/-!
Shallow embedding of the request-width (seat) estimator of
`k8s.io/apiserver/pkg/util/flowcontrol/request`
(`width.go`, `list_width.go`, `mutating_width.go`) together with theorems
about the claims of the specification.

Modelling conventions:
- Go `uint` seats are `Nat`; Go `int64` object counts and list limits, and
  the Go `int` watch count, are `Int`.
- The HTTP request is embedded as the data the estimators actually read:
  the optional `RequestInfo` resolved from the request context
  (`apirequest.RequestInfoFrom`), and the outcome of parsing the URL query
  into `ListOptions` (`metav1.Convert_url_Values_To_v1_ListOptions`, an
  external parser: `none` embeds a parse error).
- The `APIListChunking` feature-gate lookup is the explicit Boolean
  parameter `pagingEnabled`.
- `uint(math.Ceil(float64(x) / float64(100)))` is embedded as integer
  ceiling division, see `ceilDiv100`.
-/

/-- `Width` of width.go: the number of seats associated with a request. -/
structure Width where
  Seats : Nat
  deriving DecidableEq, Repr

/-- the minimum number of seats a request must occupy (width.go). -/
def minimumSeats : Nat := 1

/-- the maximum number of seats a request can occupy (width.go). -/
def maximumSeats : Nat := 10

/-- The fields of `apirequest.RequestInfo` read by the estimators. -/
structure RequestInfo where
  Verb : String
  APIGroup : String
  Resource : String
  deriving DecidableEq, Repr

/-- The fields of `metav1.ListOptions` read by the estimators.
`ResourceVersionMatch` is the Go string-typed enum; `""` embeds the
unspecified value. -/
structure ListOptions where
  Limit : Int
  Continue : String
  ResourceVersion : String
  ResourceVersionMatch : String
  deriving DecidableEq, Repr

/-- `metav1.ResourceVersionMatchExact`. -/
def ResourceVersionMatchExact : String := "Exact"

/-- The data of an HTTP request consumed by the estimators: the optional
`RequestInfo` carried in the request context, and the result of parsing
the URL query into `ListOptions` (`none` embeds a parse error of the
external converter). -/
structure Request where
  requestInfo : Option RequestInfo
  parsedListOptions : Option ListOptions

/-- objectCountGetterFunc of width.go: total number of objects for a given
resource key (int64; 0 means the count is not known). -/
abbrev objectCountGetterFunc := String → Int

/-- watchCountGetterFunc: number of watchers potentially interested in a
given request (Go int). -/
abbrev watchCountGetterFunc := RequestInfo → Int

/-- `uint(math.Ceil(float64(x) / float64(100)))` for the integer inputs of
the estimators. For `x ≥ 0` (the only values the spec and the tests give to
the count sources and to a well-formed limit) the float computation is
exact wherever the unclamped result is at most `10`, and any `x > 1000`
stays above the cap on both sides, so integer ceiling division embeds it
faithfully. For `-100 < x ≤ 0` the ceiling is a zero and the Go conversion
yields `0`, as here. For `x ≤ -100` Go's float-to-uint conversion is not
specified; the clamping performed by every caller sends any such value
into `[1, 10]`, and no claim depends on that region. -/
def ceilDiv100 (x : Int) : Nat := ((x + 99) / 100).toNat

/-- The clamping into `[minimumSeats, maximumSeats]` performed at the end
of both listWidthEstimator.estimate and mutatingWidthEstimator.estimate. -/
def clampSeats (seats : Nat) : Nat :=
  let seatsLow := if seats < minimumSeats then minimumSeats else seats
  if seatsLow > maximumSeats then maximumSeats else seatsLow

/-- Modelled from the spec: `schema.GroupResource.String` of the
apimachinery package, which is not among the sources here (only its caller
`key` is). Per the spec's GroupResourceKey: the resource name alone when
the API group is empty, otherwise the resource name, a dot, then the
group. This matches the object-count keys the tests install
(`"resource.foo.bar"` for group `"foo.bar"`, resource `"resource"`). -/
def groupResourceString (Group Resource : String) : String :=
  if Group = "" then Resource else Resource ++ "." ++ Group

/-- `key` of list_width.go: the object-count lookup key of a request. -/
def key (requestInfo : RequestInfo) : String :=
  groupResourceString requestInfo.APIGroup requestInfo.Resource

/-- `shouldListFromStorage` of list_width.go, with the
`features.APIListChunking` feature-gate lookup passed in as
`pagingEnabled`. -/
def shouldListFromStorage (pagingEnabled : Bool) (opts : ListOptions) : Bool :=
  let resourceVersion := opts.ResourceVersion
  let hasContinuation := pagingEnabled && decide (0 < opts.Continue.length)
  let hasLimit := pagingEnabled && decide (0 < opts.Limit) && decide (resourceVersion ≠ "0")
  decide (resourceVersion = "") || hasContinuation || hasLimit ||
    decide (opts.ResourceVersionMatch = ResourceVersionMatchExact)

/-- `listWidthEstimator.estimate` of list_width.go. -/
def listWidthEstimator.estimate (countFn : objectCountGetterFunc)
    (pagingEnabled : Bool) (r : Request) : Width :=
  match r.requestInfo with
  | none =>
    -- no RequestInfo should never happen, but to be on the safe side
    { Seats := maximumSeats }
  | some requestInfo =>
    match r.parsedListOptions with
    | none =>
      -- Convert_url_Values_To_v1_ListOptions failed; the error is logged
      { Seats := minimumSeats }
    | some listOptions =>
      let count := countFn (key requestInfo)
      let isListFromCache := ! shouldListFromStorage pagingEnabled listOptions
      if (listOptions.Limit = 0 ∨ isListFromCache = true) ∧ count = 0 then
        -- object count not known: allocate maximum seats when the limit is
        -- zero or we are listing from cache
        { Seats := maximumSeats }
      else
        let estimatedObjectsToBeProcessed : Int :=
          if isListFromCache then count
          else if listOptions.Limit = 0 then count
          else listOptions.Limit
        { Seats := clampSeats (ceilDiv100 estimatedObjectsToBeProcessed) }

/-- `mutatingWidthEstimator.estimate` of mutating_width.go. -/
def mutatingWidthEstimator.estimate (watchCountFn : watchCountGetterFunc)
    (r : Request) : Width :=
  match r.requestInfo with
  | none => { Seats := maximumSeats }
  | some requestInfo =>
    { Seats := clampSeats (ceilDiv100 (watchCountFn requestInfo)) }

/-- Modelled from the spec: `widthEstimator.estimate` of width.go, the verb
dispatcher. The sources contain an earlier revision of width.go whose
switch has only the `"list"` case, together with the newer revision of
width_test.go, which builds the estimator from both count sources
(`NewWidthEstimator(countsFn, watchCountsFn)`) and expects create, update,
patch and delete to be costed from the watch count; the revision of
width.go that wires `mutatingWidthEstimator` into the dispatcher is
missing from the sources. Following the spec's dispatcher contract:
missing descriptor yields `maximumSeats`; verb `"list"` delegates to the
list estimator; the mutating verbs delegate to the mutating estimator; any
other verb yields `minimumSeats`. The missing-descriptor fallback and the
`"list"` and default arms coincide with the dispatcher revision that is
among the sources. -/
def widthEstimator.estimate (countFn : objectCountGetterFunc)
    (watchCountFn : watchCountGetterFunc) (pagingEnabled : Bool)
    (r : Request) : Width :=
  match r.requestInfo with
  | none =>
    -- no RequestInfo should never happen, but to be on the safe side
    { Seats := maximumSeats }
  | some requestInfo =>
    if requestInfo.Verb = "list" then
      listWidthEstimator.estimate countFn pagingEnabled r
    else if requestInfo.Verb = "create" ∨ requestInfo.Verb = "update" ∨
        requestInfo.Verb = "patch" ∨ requestInfo.Verb = "delete" then
      mutatingWidthEstimator.estimate watchCountFn r
    else
      { Seats := minimumSeats }

/-- `WidthEstimatorFunc.EstimateWidth` applied to the estimator built by
`NewWidthEstimator`: the public entry point. -/
def EstimateWidth (countFn : objectCountGetterFunc)
    (watchCountFn : watchCountGetterFunc) (pagingEnabled : Bool)
    (r : Request) : Width :=
  widthEstimator.estimate countFn watchCountFn pagingEnabled r

/-! ### Helper lemmas -/

/-- A Lean string has positive length exactly when it is nonempty; connects
the `len(opts.Continue) > 0` test of the source with the spec's phrase
"the continue token is non-empty". -/
theorem string_length_pos_iff (s : String) : 0 < s.length ↔ s ≠ "" := by
  rw [Nat.pos_iff_ne_zero]
  have h0 : s.length = 0 ↔ s = "" := by
    cases s with
    | mk data =>
      constructor
      · intro h
        have hd : data = [] := List.length_eq_zero.mp h
        simp [hd]
      · intro h
        simp [h]
  exact not_congr h0

/-- The clamp at the end of each estimator always lands in `[1, 10]`. -/
theorem clampSeats_range (n : Nat) : 1 ≤ clampSeats n ∧ clampSeats n ≤ 10 := by
  simp only [clampSeats, minimumSeats, maximumSeats]
  split_ifs <;> omega

/-- The clamp is monotone. -/
theorem clampSeats_mono (m n : Nat) (h : m ≤ n) : clampSeats m ≤ clampSeats n := by
  simp only [clampSeats, minimumSeats, maximumSeats]
  split_ifs <;> omega

/-- The seats-per-100-objects ceiling is monotone. -/
theorem ceilDiv100_mono (x y : Int) (h : x ≤ y) : ceilDiv100 x ≤ ceilDiv100 y := by
  unfold ceilDiv100
  exact Int.toNat_le_toNat (Int.ediv_le_ediv (by norm_num) (by omega))

/-- The list estimator on the missing-RequestInfo path. -/
theorem listWidth_no_requestInfo (countFn : objectCountGetterFunc)
    (pagingEnabled : Bool) (r : Request) (h : r.requestInfo = none) :
    listWidthEstimator.estimate countFn pagingEnabled r = { Seats := maximumSeats } := by
  simp [listWidthEstimator.estimate, h]

/-- The list estimator outside the unknown-count branch returns the clamped
ceiling of the estimated number of objects to be processed: the known count
when listing from cache, otherwise the limit if one was specified, else the
count. -/
theorem listWidth_branch_eq (countFn : objectCountGetterFunc) (pagingEnabled : Bool)
    (r : Request) (info : RequestInfo) (opts : ListOptions)
    (hinfo : r.requestInfo = some info) (hopts : r.parsedListOptions = some opts)
    (hbranch : ¬ ((opts.Limit = 0 ∨ shouldListFromStorage pagingEnabled opts = false) ∧
        countFn (key info) = 0)) :
    listWidthEstimator.estimate countFn pagingEnabled r =
      { Seats := clampSeats (ceilDiv100
          (if shouldListFromStorage pagingEnabled opts = false then countFn (key info)
            else if opts.Limit = 0 then countFn (key info)
            else opts.Limit)) } := by
  simp only [listWidthEstimator.estimate, hinfo, hopts, Bool.not_eq_true']
  rw [if_neg hbranch]

/-- Range of the list estimator on every path. -/
theorem listWidth_range (countFn : objectCountGetterFunc) (pagingEnabled : Bool)
    (r : Request) :
    1 ≤ (listWidthEstimator.estimate countFn pagingEnabled r).Seats ∧
      (listWidthEstimator.estimate countFn pagingEnabled r).Seats ≤ 10 := by
  rcases hri : r.requestInfo with _ | info
  · simp [listWidthEstimator.estimate, hri, maximumSeats]
  · rcases hpo : r.parsedListOptions with _ | opts
    · simp [listWidthEstimator.estimate, hri, hpo, minimumSeats]
    · simp only [listWidthEstimator.estimate, hri, hpo]
      split_ifs
      · simp [maximumSeats]
      · exact clampSeats_range _
      · exact clampSeats_range _
      · exact clampSeats_range _

/-- Range of the mutating estimator on every path. -/
theorem mutatingWidth_range (watchCountFn : watchCountGetterFunc) (r : Request) :
    1 ≤ (mutatingWidthEstimator.estimate watchCountFn r).Seats ∧
      (mutatingWidthEstimator.estimate watchCountFn r).Seats ≤ 10 := by
  rcases hri : r.requestInfo with _ | info
  · simp [mutatingWidthEstimator.estimate, hri, maximumSeats]
  · simp only [mutatingWidthEstimator.estimate, hri]
    exact clampSeats_range _

/-! ### Claim theorems -/

/-- Claim C1: for every request, the dispatcher, the list estimator and the
mutating estimator each return a `Width` whose `Seats` lie in
`[minimumSeats, maximumSeats] = [1, 10]`, on every path. -/
theorem estimateWidth_seats_in_range (countFn : objectCountGetterFunc)
    (watchCountFn : watchCountGetterFunc) (pagingEnabled : Bool) (r : Request) :
    (1 ≤ (EstimateWidth countFn watchCountFn pagingEnabled r).Seats ∧
      (EstimateWidth countFn watchCountFn pagingEnabled r).Seats ≤ 10) ∧
    (1 ≤ (listWidthEstimator.estimate countFn pagingEnabled r).Seats ∧
      (listWidthEstimator.estimate countFn pagingEnabled r).Seats ≤ 10) ∧
    (1 ≤ (mutatingWidthEstimator.estimate watchCountFn r).Seats ∧
      (mutatingWidthEstimator.estimate watchCountFn r).Seats ≤ 10) := by
  refine ⟨?_, listWidth_range countFn pagingEnabled r, mutatingWidth_range watchCountFn r⟩
  rcases hri : r.requestInfo with _ | info
  · simp [EstimateWidth, widthEstimator.estimate, hri, maximumSeats]
  · simp only [EstimateWidth, widthEstimator.estimate, hri]
    split_ifs
    · exact listWidth_range countFn pagingEnabled r
    · exact mutatingWidth_range watchCountFn r
    · simp [minimumSeats]

/-- Claim C3: a request from which no `RequestInfo` can be resolved gets
`Width{Seats := maximumSeats}`, that is 10 seats, whatever the verb, URL or
query; the estimator is total, so the call never fails. -/
theorem estimateWidth_missing_requestInfo (countFn : objectCountGetterFunc)
    (watchCountFn : watchCountGetterFunc) (pagingEnabled : Bool) (r : Request)
    (h : r.requestInfo = none) :
    EstimateWidth countFn watchCountFn pagingEnabled r = { Seats := maximumSeats } ∧
    (EstimateWidth countFn watchCountFn pagingEnabled r).Seats = 10 := by
  have heq : EstimateWidth countFn watchCountFn pagingEnabled r = { Seats := maximumSeats } := by
    simp [EstimateWidth, widthEstimator.estimate, h]
  exact ⟨heq, by rw [heq]; rfl⟩

/-- Witness for C3 at a concrete request carrying no RequestInfo. -/
theorem estimateWidth_missing_requestInfo_witness :
    (EstimateWidth (fun _ => 0) (fun _ => 0) true
        { requestInfo := none, parsedListOptions := none }).Seats = 10 :=
  (estimateWidth_missing_requestInfo (fun _ => 0) (fun _ => 0) true
    { requestInfo := none, parsedListOptions := none } rfl).2

/-- Claim C4: `shouldListFromStorage` holds exactly when the resource
version is unspecified, or paging is enabled with a non-empty continue
token, or paging is enabled with a positive limit and a resource version
other than the cache sentinel "0", or the resource-version match is Exact;
serving from cache is exactly the negation. -/
theorem shouldListFromStorage_iff (pagingEnabled : Bool) (opts : ListOptions) :
    (shouldListFromStorage pagingEnabled opts = true ↔
      (opts.ResourceVersion = "" ∨
        (pagingEnabled = true ∧ opts.Continue ≠ "") ∨
        (pagingEnabled = true ∧ 0 < opts.Limit ∧ opts.ResourceVersion ≠ "0") ∨
        opts.ResourceVersionMatch = ResourceVersionMatchExact)) ∧
    (shouldListFromStorage pagingEnabled opts = false ↔
      ¬ (opts.ResourceVersion = "" ∨
        (pagingEnabled = true ∧ opts.Continue ≠ "") ∨
        (pagingEnabled = true ∧ 0 < opts.Limit ∧ opts.ResourceVersion ≠ "0") ∨
        opts.ResourceVersionMatch = ResourceVersionMatchExact)) := by
  have h1 : shouldListFromStorage pagingEnabled opts = true ↔
      (opts.ResourceVersion = "" ∨
        (pagingEnabled = true ∧ opts.Continue ≠ "") ∨
        (pagingEnabled = true ∧ 0 < opts.Limit ∧ opts.ResourceVersion ≠ "0") ∨
        opts.ResourceVersionMatch = ResourceVersionMatchExact) := by
    simp only [shouldListFromStorage, Bool.or_eq_true, Bool.and_eq_true,
      decide_eq_true_eq, string_length_pos_iff]
    tauto
  refine ⟨h1, ?_⟩
  rw [← h1]
  cases h : shouldListFromStorage pagingEnabled opts <;> simp

/-- Claim C2: with a resolved descriptor and a mutating verb (create,
update, patch or delete), the dispatcher delegates to the mutating
estimator, so the result is the clamped ceiling of watchCount / 100 with
watchCount looked up from the watch-count source at the descriptor. -/
theorem estimateWidth_mutating_delegates (countFn : objectCountGetterFunc)
    (watchCountFn : watchCountGetterFunc) (pagingEnabled : Bool) (r : Request)
    (info : RequestInfo) (hinfo : r.requestInfo = some info)
    (hverb : info.Verb = "create" ∨ info.Verb = "update" ∨
      info.Verb = "patch" ∨ info.Verb = "delete") :
    EstimateWidth countFn watchCountFn pagingEnabled r =
      mutatingWidthEstimator.estimate watchCountFn r ∧
    (EstimateWidth countFn watchCountFn pagingEnabled r).Seats =
      clampSeats (ceilDiv100 (watchCountFn info)) := by
  have hne : ¬ info.Verb = "list" := by
    rcases hverb with h | h | h | h <;> simp [h]
  have h1 : EstimateWidth countFn watchCountFn pagingEnabled r =
      mutatingWidthEstimator.estimate watchCountFn r := by
    simp only [EstimateWidth, widthEstimator.estimate, hinfo]
    rw [if_neg hne, if_pos hverb]
  refine ⟨h1, ?_⟩
  rw [h1]
  simp [mutatingWidthEstimator.estimate, hinfo]

/-- Concrete mutating request for the C2 witness. -/
def createInfo : RequestInfo :=
  { Verb := "create", APIGroup := "foo.bar", Resource := "resource" }

/-- Concrete mutating request for the C2 witness. -/
def createReq : Request :=
  { requestInfo := some createInfo, parsedListOptions := none }

/-- Witness for C2: watchCount 299 gives 3 seats and watchCount 1999 gives
10 seats on a concrete create request. -/
theorem estimateWidth_mutating_delegates_witness :
    (EstimateWidth (fun _ => 0) (fun _ => 299) true createReq).Seats = 3 ∧
    (EstimateWidth (fun _ => 0) (fun _ => 1999) true createReq).Seats = 10 := by
  constructor
  · rw [(estimateWidth_mutating_delegates (fun _ => 0) (fun _ => 299) true createReq
      createInfo rfl (Or.inl rfl)).2]
    decide
  · rw [(estimateWidth_mutating_delegates (fun _ => 0) (fun _ => 1999) true createReq
      createInfo rfl (Or.inl rfl)).2]
    decide

/-- Claim C5: for a list request with descriptor and parsed options, off
the unknown-count branch, the seats are the clamped ceiling of
estimatedObjects / 100, where estimatedObjects is the count when serving
from cache and otherwise the limit when positive, falling back to the
count. -/
theorem listWidth_estimatedObjects_formula (countFn : objectCountGetterFunc)
    (pagingEnabled : Bool) (r : Request) (info : RequestInfo) (opts : ListOptions)
    (hinfo : r.requestInfo = some info) (hopts : r.parsedListOptions = some opts)
    (hbranch : ¬ ((opts.Limit = 0 ∨ shouldListFromStorage pagingEnabled opts = false) ∧
        countFn (key info) = 0)) :
    listWidthEstimator.estimate countFn pagingEnabled r =
      { Seats := clampSeats (ceilDiv100
          (if shouldListFromStorage pagingEnabled opts = false then countFn (key info)
            else if opts.Limit = 0 then countFn (key info)
            else opts.Limit)) } :=
  listWidth_branch_eq countFn pagingEnabled r info opts hinfo hopts hbranch

/-- Descriptor of the concrete list requests used by the witnesses. -/
def testListInfo : RequestInfo :=
  { Verb := "list", APIGroup := "foo.bar", Resource := "resource" }

/-- Count source of the concrete list requests used by the witnesses:
799 objects of the test resource. -/
def count799Fn : objectCountGetterFunc :=
  fun k => if k = "resource.foo.bar" then 799 else 0

/-- Options with resourceVersion "0" and limit 799: served from cache. -/
def cacheOpts799 : ListOptions :=
  { Limit := 799, Continue := "", ResourceVersion := "0", ResourceVersionMatch := "" }

/-- Options with resourceVersion "1" and limit 499: served from storage. -/
def storageOpts499 : ListOptions :=
  { Limit := 499, Continue := "", ResourceVersion := "1", ResourceVersionMatch := "" }

/-- Witness for C5: with resourceVersion "0", limit 799 and count 799 the
estimate is 8 seats (count-based); with resourceVersion "1", limit 499 and
count 799 it is 5 seats (limit-based). -/
theorem listWidth_estimatedObjects_formula_witness :
    (listWidthEstimator.estimate count799Fn true
        { requestInfo := some testListInfo, parsedListOptions := some cacheOpts799 }).Seats = 8 ∧
    (listWidthEstimator.estimate count799Fn true
        { requestInfo := some testListInfo, parsedListOptions := some storageOpts499 }).Seats = 5 := by
  constructor
  · rw [listWidth_estimatedObjects_formula count799Fn true
      { requestInfo := some testListInfo, parsedListOptions := some cacheOpts799 }
      testListInfo cacheOpts799 rfl rfl (by decide)]
    decide
  · rw [listWidth_estimatedObjects_formula count799Fn true
      { requestInfo := some testListInfo, parsedListOptions := some storageOpts499 }
      testListInfo storageOpts499 rfl rfl (by decide)]
    decide

/-- Claim C6: when the object count lookup yields 0 (unknown) and the limit
is zero or the request would be served from cache, the list estimator
returns maximumSeats, which is 10; the unknown count is handled as a
value, not an error. -/
theorem listWidth_unknown_count_max (countFn : objectCountGetterFunc)
    (pagingEnabled : Bool) (r : Request) (info : RequestInfo) (opts : ListOptions)
    (hinfo : r.requestInfo = some info) (hopts : r.parsedListOptions = some opts)
    (hcount : countFn (key info) = 0)
    (hcond : opts.Limit = 0 ∨ shouldListFromStorage pagingEnabled opts = false) :
    listWidthEstimator.estimate countFn pagingEnabled r = { Seats := maximumSeats } ∧
    maximumSeats = 10 := by
  refine ⟨?_, rfl⟩
  simp only [listWidthEstimator.estimate, hinfo, hopts, Bool.not_eq_true']
  rw [if_pos ⟨hcond, hcount⟩]

/-- Witness for C6: unknown count, cache-eligible (resourceVersion "0"),
unspecified limit gives 10 seats. -/
theorem listWidth_unknown_count_max_witness :
    listWidthEstimator.estimate (fun _ => 0) true
      { requestInfo := some testListInfo,
        parsedListOptions := some
          { Limit := 0, Continue := "", ResourceVersion := "0",
            ResourceVersionMatch := "" } } = { Seats := 10 } :=
  (listWidth_unknown_count_max (fun _ => 0) true
    { requestInfo := some testListInfo,
      parsedListOptions := some
        { Limit := 0, Continue := "", ResourceVersion := "0",
          ResourceVersionMatch := "" } }
    testListInfo
    { Limit := 0, Continue := "", ResourceVersion := "0", ResourceVersionMatch := "" }
    rfl rfl rfl (Or.inl rfl)).1

/-- Claim C7: a list request with a resolved descriptor whose query fails
to parse gets minimumSeats, which is 1; deliberately asymmetric with the
missing-descriptor path of the same estimator, which gets maximumSeats.
The error never escapes: the estimator still returns a Width. -/
theorem listWidth_parse_failure_min (countFn : objectCountGetterFunc)
    (pagingEnabled : Bool) (r : Request) (info : RequestInfo)
    (hinfo : r.requestInfo = some info) (hfail : r.parsedListOptions = none) :
    listWidthEstimator.estimate countFn pagingEnabled r = { Seats := minimumSeats } ∧
    minimumSeats = 1 ∧
    (∀ r2 : Request, r2.requestInfo = none →
      listWidthEstimator.estimate countFn pagingEnabled r2 = { Seats := maximumSeats }) := by
  refine ⟨?_, rfl, ?_⟩
  · simp [listWidthEstimator.estimate, hinfo, hfail]
  · intro r2 h2
    exact listWidth_no_requestInfo countFn pagingEnabled r2 h2

/-- Witness for C7 on a concrete request with a descriptor and a failed
query parse. -/
theorem listWidth_parse_failure_min_witness :
    listWidthEstimator.estimate count799Fn true
      { requestInfo := some testListInfo, parsedListOptions := none } =
      { Seats := minimumSeats } :=
  (listWidth_parse_failure_min count799Fn true
    { requestInfo := some testListInfo, parsedListOptions := none }
    testListInfo rfl rfl).1

/-- Claim C9: with a resolved descriptor whose verb is neither "list" nor
one of the mutating verbs, the dispatcher returns minimumSeats, which
is 1. -/
theorem estimateWidth_other_verbs_min (countFn : objectCountGetterFunc)
    (watchCountFn : watchCountGetterFunc) (pagingEnabled : Bool) (r : Request)
    (info : RequestInfo) (hinfo : r.requestInfo = some info)
    (hlist : info.Verb ≠ "list")
    (hmut : ¬ (info.Verb = "create" ∨ info.Verb = "update" ∨
      info.Verb = "patch" ∨ info.Verb = "delete")) :
    EstimateWidth countFn watchCountFn pagingEnabled r = { Seats := minimumSeats } ∧
    minimumSeats = 1 := by
  refine ⟨?_, rfl⟩
  simp only [EstimateWidth, widthEstimator.estimate, hinfo]
  rw [if_neg hlist, if_neg hmut]

/-- Witness for C9 on a concrete "get" request and a concrete "watch"
request. -/
theorem estimateWidth_other_verbs_min_witness :
    EstimateWidth count799Fn (fun _ => 299) true
      { requestInfo := some { Verb := "get", APIGroup := "foo.bar", Resource := "resource" },
        parsedListOptions := none } = { Seats := minimumSeats } ∧
    EstimateWidth count799Fn (fun _ => 299) true
      { requestInfo := some { Verb := "watch", APIGroup := "foo.bar", Resource := "resource" },
        parsedListOptions := none } = { Seats := minimumSeats } :=
  ⟨(estimateWidth_other_verbs_min count799Fn (fun _ => 299) true
      { requestInfo := some { Verb := "get", APIGroup := "foo.bar", Resource := "resource" },
        parsedListOptions := none }
      { Verb := "get", APIGroup := "foo.bar", Resource := "resource" }
      rfl (by decide) (by decide)).1,
    (estimateWidth_other_verbs_min count799Fn (fun _ => 299) true
      { requestInfo := some { Verb := "watch", APIGroup := "foo.bar", Resource := "resource" },
        parsedListOptions := none }
      { Verb := "watch", APIGroup := "foo.bar", Resource := "resource" }
      rfl (by decide) (by decide)).1⟩

/-- Raising a positive limit keeps a list on the storage path: the limit
only occurs positively in `shouldListFromStorage`. -/
theorem shouldListFromStorage_limit_mono (pagingEnabled : Bool)
    (cont rv rvm : String) (l1 l2 : Int) (h1 : 0 < l1) (h12 : l1 ≤ l2)
    (hs : shouldListFromStorage pagingEnabled
      { Limit := l1, Continue := cont, ResourceVersion := rv,
        ResourceVersionMatch := rvm } = true) :
    shouldListFromStorage pagingEnabled
      { Limit := l2, Continue := cont, ResourceVersion := rv,
        ResourceVersionMatch := rvm } = true := by
  simp only [shouldListFromStorage, Bool.or_eq_true, Bool.and_eq_true,
    decide_eq_true_eq] at hs ⊢
  rcases hs with ((h | h) | ⟨⟨hpe, hpos⟩, hrv⟩) | h
  · exact Or.inl (Or.inl (Or.inl h))
  · exact Or.inl (Or.inl (Or.inr h))
  · exact Or.inl (Or.inr ⟨⟨hpe, by omega⟩, hrv⟩)
  · exact Or.inr h

/-- The list estimator on the storage path with a specified limit returns
the clamped ceiling of the limit. -/
theorem listWidth_storage_limit_eq (countFn : objectCountGetterFunc)
    (pagingEnabled : Bool) (r : Request) (info : RequestInfo) (opts : ListOptions)
    (hinfo : r.requestInfo = some info) (hopts : r.parsedListOptions = some opts)
    (hs : shouldListFromStorage pagingEnabled opts = true) (hl : opts.Limit ≠ 0) :
    listWidthEstimator.estimate countFn pagingEnabled r =
      { Seats := clampSeats (ceilDiv100 opts.Limit) } := by
  have hb : ¬ ((opts.Limit = 0 ∨ shouldListFromStorage pagingEnabled opts = false) ∧
      countFn (key info) = 0) := by
    rintro ⟨h | h, -⟩
    · exact hl h
    · rw [hs] at h; exact Bool.noConfusion h
  rw [listWidth_branch_eq countFn pagingEnabled r info opts hinfo hopts hb,
    if_neg (show ¬ shouldListFromStorage pagingEnabled opts = false by
      rw [hs]; exact fun h => Bool.noConfusion h),
    if_neg hl]

/-- The list estimator on the cache path with a known (nonzero) count
returns the clamped ceiling of the count. -/
theorem listWidth_cache_count_eq (countFn : objectCountGetterFunc)
    (pagingEnabled : Bool) (r : Request) (info : RequestInfo) (opts : ListOptions)
    (hinfo : r.requestInfo = some info) (hopts : r.parsedListOptions = some opts)
    (hcache : shouldListFromStorage pagingEnabled opts = false)
    (hc : countFn (key info) ≠ 0) :
    listWidthEstimator.estimate countFn pagingEnabled r =
      { Seats := clampSeats (ceilDiv100 (countFn (key info))) } := by
  have hb : ¬ ((opts.Limit = 0 ∨ shouldListFromStorage pagingEnabled opts = false) ∧
      countFn (key info) = 0) := by
    rintro ⟨-, h⟩
    exact hc h
  rw [listWidth_branch_eq countFn pagingEnabled r info opts hinfo hopts hb,
    if_pos hcache]

/-- Options with resourceVersion "0" and no limit: the cache path of the
C8 counterexample. -/
def cexOpts : ListOptions :=
  { Limit := 0, Continue := "", ResourceVersion := "0", ResourceVersionMatch := "" }

/-- Request of the C8 counterexample. -/
def cexReq : Request :=
  { requestInfo := some testListInfo, parsedListOptions := some cexOpts }

/-- Counterexample to claim C8 as stated: on the cache path
(resourceVersion "0", so `shouldListFromStorage` is false), raising the
count from 0 to 1 drops the seats from 10 to 1, because count 0 is the
unknown-count sentinel routed to the worst case; so seats are not
non-decreasing in the count over all counts. -/
theorem listWidth_cache_monotone_counterexample :
    shouldListFromStorage true cexOpts = false ∧
    (0 : Int) ≤ 1 ∧
    (listWidthEstimator.estimate (fun _ => (0 : Int)) true cexReq).Seats = 10 ∧
    (listWidthEstimator.estimate (fun _ => (1 : Int)) true cexReq).Seats = 1 ∧
    ¬ ((listWidthEstimator.estimate (fun _ => (0 : Int)) true cexReq).Seats ≤
        (listWidthEstimator.estimate (fun _ => (1 : Int)) true cexReq).Seats) := by
  decide

/-- Claim C8 (amended): on the storage path with positive limit, the seats
are non-decreasing in the limit with the count and the other options held
fixed; on the cache path, the seats are non-decreasing in the count over
the known counts, that is counts at least 1 — at count 0, the unknown
sentinel, the estimator instead returns the worst case
(`listWidth_cache_monotone_counterexample`). -/
theorem listWidth_monotone :
    (∀ (pagingEnabled : Bool) (info : RequestInfo) (cont rv rvm : String)
      (countFn : objectCountGetterFunc) (l1 l2 : Int),
      0 < l1 → l1 ≤ l2 →
      shouldListFromStorage pagingEnabled
        { Limit := l1, Continue := cont, ResourceVersion := rv,
          ResourceVersionMatch := rvm } = true →
      (listWidthEstimator.estimate countFn pagingEnabled
          { requestInfo := some info,
            parsedListOptions := some
              { Limit := l1, Continue := cont, ResourceVersion := rv,
                ResourceVersionMatch := rvm } }).Seats ≤
        (listWidthEstimator.estimate countFn pagingEnabled
          { requestInfo := some info,
            parsedListOptions := some
              { Limit := l2, Continue := cont, ResourceVersion := rv,
                ResourceVersionMatch := rvm } }).Seats) ∧
    (∀ (pagingEnabled : Bool) (info : RequestInfo) (opts : ListOptions) (c1 c2 : Int),
      shouldListFromStorage pagingEnabled opts = false →
      1 ≤ c1 → c1 ≤ c2 →
      (listWidthEstimator.estimate (fun _ => c1) pagingEnabled
          { requestInfo := some info, parsedListOptions := some opts }).Seats ≤
        (listWidthEstimator.estimate (fun _ => c2) pagingEnabled
          { requestInfo := some info, parsedListOptions := some opts }).Seats) := by
  constructor
  · intro pagingEnabled info cont rv rvm countFn l1 l2 hl1 hl12 hs1
    have hs2 : shouldListFromStorage pagingEnabled
        { Limit := l2, Continue := cont, ResourceVersion := rv,
          ResourceVersionMatch := rvm } = true :=
      shouldListFromStorage_limit_mono pagingEnabled cont rv rvm l1 l2 hl1 hl12 hs1
    rw [listWidth_storage_limit_eq countFn pagingEnabled _ info
        { Limit := l1, Continue := cont, ResourceVersion := rv,
          ResourceVersionMatch := rvm } rfl rfl hs1 (show l1 ≠ 0 by omega),
      listWidth_storage_limit_eq countFn pagingEnabled _ info
        { Limit := l2, Continue := cont, ResourceVersion := rv,
          ResourceVersionMatch := rvm } rfl rfl hs2 (show l2 ≠ 0 by omega)]
    exact clampSeats_mono _ _ (ceilDiv100_mono l1 l2 hl12)
  · intro pagingEnabled info opts c1 c2 hcache hc1 hc12
    rw [listWidth_cache_count_eq (fun _ => c1) pagingEnabled _ info opts rfl rfl
        hcache (show c1 ≠ 0 by omega),
      listWidth_cache_count_eq (fun _ => c2) pagingEnabled _ info opts rfl rfl
        hcache (show c2 ≠ 0 by omega)]
    exact clampSeats_mono _ _ (ceilDiv100_mono c1 c2 hc12)

/-- Witness for the amended C8: a storage-path pair with limits 100 and
1000, and a cache-path pair with known counts 1 and 500. -/
theorem listWidth_monotone_witness :
    ((listWidthEstimator.estimate count799Fn true
        { requestInfo := some testListInfo,
          parsedListOptions := some
            { Limit := 100, Continue := "", ResourceVersion := "1",
              ResourceVersionMatch := "" } }).Seats ≤
      (listWidthEstimator.estimate count799Fn true
        { requestInfo := some testListInfo,
          parsedListOptions := some
            { Limit := 1000, Continue := "", ResourceVersion := "1",
              ResourceVersionMatch := "" } }).Seats) ∧
    ((listWidthEstimator.estimate (fun _ => (1 : Int)) true
        { requestInfo := some testListInfo, parsedListOptions := some cexOpts }).Seats ≤
      (listWidthEstimator.estimate (fun _ => (500 : Int)) true
        { requestInfo := some testListInfo, parsedListOptions := some cexOpts }).Seats) :=
  ⟨listWidth_monotone.1 true testListInfo "" "1" "" count799Fn 100 1000
      (by decide) (by decide) (by decide),
    listWidth_monotone.2 true testListInfo cexOpts 1 500
      (by decide) (by decide) (by decide)⟩

/-- Claim C10: the object-count lookup key depends only on the API group
and resource of the descriptor; it is the resource name alone when the
group is empty and "resource.group" otherwise. -/
theorem key_group_resource (i1 i2 info : RequestInfo)
    (hg : i1.APIGroup = i2.APIGroup) (hr : i1.Resource = i2.Resource) :
    key i1 = key i2 ∧
    (info.APIGroup = "" → key info = info.Resource) ∧
    (info.APIGroup ≠ "" → key info = info.Resource ++ "." ++ info.APIGroup) := by
  refine ⟨?_, ?_, ?_⟩
  · simp [key, hg, hr]
  · intro h; simp [key, groupResourceString, h]
  · intro h; simp [key, groupResourceString, h]

/-- Witness for C10: descriptors differing only in the verb share the key;
the key of group "foo.bar", resource "resource" is "resource.foo.bar" and
not "foo.bar/resource"; an empty group gives the bare resource name. -/
theorem key_group_resource_witness :
    key { Verb := "list", APIGroup := "foo.bar", Resource := "resource" } =
      key { Verb := "get", APIGroup := "foo.bar", Resource := "resource" } ∧
    key { Verb := "list", APIGroup := "foo.bar", Resource := "resource" } =
      "resource.foo.bar" ∧
    key { Verb := "list", APIGroup := "", Resource := "resource" } = "resource" ∧
    key { Verb := "list", APIGroup := "foo.bar", Resource := "resource" } ≠
      "foo.bar/resource" := by
  have h := key_group_resource
    { Verb := "list", APIGroup := "foo.bar", Resource := "resource" }
    { Verb := "get", APIGroup := "foo.bar", Resource := "resource" }
    { Verb := "list", APIGroup := "foo.bar", Resource := "resource" } rfl rfl
  exact ⟨h.1, by decide, by decide, by decide⟩
